import Mathlib

/-!
Shallow embedding of the RadGraph analysis core of this repository
(class RadGraphAnalyzer in the intensity-prediction notebook): the
parser `parse_radgraph_format`, the certainty counter
`analyze_certainty`, the pattern analyzer `find_pneumonia_patterns`
and the feature builder `extract_features`, together with theorems
settling the specification claims about them.

Python dictionaries are modelled as insertion-ordered association
lists (Python 3.7+ dicts preserve insertion order), Python exceptions
as `Except String`, and Python string primitives (`str.split`,
`str.join`, `in`, `str.lower`, `str.split(sep)`) as the executable
character-list functions below.
-/

deriving instance DecidableEq for Except

/-- Python `str.split()` helper: cut a character list into maximal
runs of non-whitespace characters, dropping all whitespace. `acc`
holds the current (reversed) run. -/
def splitWSAux : List Char → List Char → List (List Char)
  | [], acc => if acc = [] then [] else [acc.reverse]
  | c :: cs, acc =>
    if c.isWhitespace then
      if acc = [] then splitWSAux cs [] else acc.reverse :: splitWSAux cs []
    else splitWSAux cs (c :: acc)

/-- Python `str.split()` (no separator argument): whitespace runs
separate the tokens and empty tokens never appear. -/
def pySplit (s : String) : List String :=
  (splitWSAux s.toList []).map String.mk

/-- Python `" ".join(l)`. -/
def pyJoin : List String → String
  | [] => ""
  | [x] => x
  | x :: xs => x ++ " " ++ pyJoin xs

/-- Does `pat` start the list `l`? (Helper for Python `in`.) -/
def leadMatch : List Char → List Char → Bool
  | [], _ => true
  | _ :: _, [] => false
  | a :: as, b :: bs => a == b && leadMatch as bs

/-- Helper for Python `pat in s`: does `pat` occur as a contiguous
sublist of `l`? -/
def hasSubCh (pat : List Char) : List Char → Bool
  | [] => pat.isEmpty
  | l@(_ :: cs) => leadMatch pat l || hasSubCh pat cs

/-- Python `pat in s` on strings (substring containment). -/
def hasSub (s pat : String) : Bool :=
  hasSubCh pat.toList s.toList

/-- Python `s.lower()` (the data here is ASCII). -/
def pyLower (s : String) : String :=
  String.mk (s.toList.map Char.toLower)

/-- Python `s.split("::")` on character lists: split at each
non-overlapping occurrence of `::`, left to right. -/
def splitColons : List Char → List Char → List (List Char)
  | ':' :: ':' :: cs, acc => acc.reverse :: splitColons cs []
  | c :: cs, acc => splitColons cs (c :: acc)
  | [], acc => [acc.reverse]

/-- Python `s.split("::")` on strings. -/
def pySplitColons (s : String) : List String :=
  (splitColons s.toList []).map String.mk

/-- Python `l[1]` on a list, as an `Option` (IndexError when absent). -/
def pyIndex1 : List String → Option String
  | _ :: x :: _ => some x
  | _ => none

/-- An entry of the `entities` mapping of a RadGraph extract: the
fields the analyzer reads (`label`, `start_ix`, `end_ix`,
`relations`); each relation entry is a `(rel_type, target_id)` pair.
(The sample data also carries a `tokens` field, which the code never
reads, so it is not part of the model.) -/
structure EntityInfo where
  label : String
  start_ix : Nat
  end_ix : Nat
  relations : List (String × String)
deriving DecidableEq

/-- A RadGraph extract: the report text plus the insertion-ordered
entity mapping (entity id to its info). -/
structure Extract where
  text : String
  entities : List (String × EntityInfo)
deriving DecidableEq

/-- An Entity record as produced by `parse_radgraph_format`. -/
structure Entity where
  id : String
  text : String
  type : String
  start_ix : Nat
  end_ix : Nat
deriving DecidableEq

/-- A Relation record as produced by `parse_radgraph_format`. -/
structure Relation where
  source : String
  target : String
  type : String
deriving DecidableEq

/-- Build the Entity record for one entry of the entity mapping:
the text is the space-join of the token slice
`toks[start_ix : end_ix + 1]` (Python slicing clips silently at the
list length). -/
def mkEntity (toks : List String) (p : String × EntityInfo) : Entity :=
  { id := p.1
    text := pyJoin ((toks.drop p.2.start_ix).take (p.2.end_ix + 1 - p.2.start_ix))
    type := p.2.label
    start_ix := p.2.start_ix
    end_ix := p.2.end_ix }

/-- `RadGraphAnalyzer.parse_radgraph_format`: converts a RadGraph
extract into the list of Entity records and the list of Relation
records, both in document (insertion) order. No span or endpoint
validation is performed. -/
def parse_radgraph_format (extract : Extract) : List Entity × List Relation :=
  let toks := pySplit extract.text
  (extract.entities.map (mkEntity toks),
   extract.entities.flatMap
     (fun p => p.2.relations.map
       (fun rt => { source := p.1, target := rt.2, type := rt.1 })))

/-- The analyzer constant `ENTITY_TYPES` (declared in the source but
never consulted by any method). -/
def ENTITY_TYPES : List String :=
  ["Anatomy::definitely present", "Observation::definitely present",
   "Observation::uncertain", "Observation::definitely absent"]

/-- The analyzer constant `RELATION_TYPES` (declared in the source but
never consulted by any method). -/
def RELATION_TYPES : List String :=
  ["suggestive_of", "located_at", "modify"]

/-- `self.pneumonia_terms`: the pneumonia vocabulary set (a Python
set; its iteration order never affects the `any` test, see the C9
theorem). -/
def pneumonia_terms : List String :=
  ["consolidation", "opacity", "infiltrate", "pneumonia",
   "airspace disease", "ground glass", "patchy", "focal"]

/-- `defaultdict(int)` bump: increment the count at `k`, appending a
fresh `(k, 1)` entry at the end on first touch (Python dict insertion
order). -/
def bumpCount : List (String × Nat) → String → List (String × Nat)
  | [], k => [(k, 1)]
  | (k', n) :: rest, k =>
    if k' = k then (k', n + 1) :: rest else (k', n) :: bumpCount rest k

/-- `RadGraphAnalyzer.analyze_certainty`: for every entity whose type
label contains `::`, count the portion after the first `::` (Python
`type.split("::")[1]`). The guard is substring containment of `::`,
not an Observation check. -/
def analyze_certainty (entities : List Entity) : List (String × Nat) :=
  entities.foldl
    (fun acc e =>
      if hasSub e.type "::" then
        bumpCount acc ((pyIndex1 (pySplitColons e.type)).getD "")
      else acc)
    []

/-- A value stored in the `findings` mapping: `located_at` stores the
target text (a string) while `suggestive_of` stores a
(source text, target text) tuple, in the same Python dict. -/
inductive FVal where
  | str : String → FVal
  | pair : String → String → FVal
deriving DecidableEq

/-- The Pattern Bundle produced by `find_pneumonia_patterns`:
`defaultdict(list)` mappings modelled as insertion-ordered
association lists. -/
structure Patterns where
  findings : List (String × List FVal)
  locations : List (String × List String)
  modifiers : List (String × List String)
deriving DecidableEq

/-- The initial (empty) Pattern Bundle. -/
def emptyPatterns : Patterns := ⟨[], [], []⟩

/-- `defaultdict(list)` append for the findings mapping: append `v`
to the list at `k`, creating the entry at the end on first touch. -/
def addToFindings : List (String × List FVal) → String → FVal → List (String × List FVal)
  | [], k, v => [(k, [v])]
  | (k', vs) :: rest, k, v =>
    if k' = k then (k', vs ++ [v]) :: rest else (k', vs) :: addToFindings rest k v

/-- `defaultdict(list)` append for a string-valued mapping. -/
def addToStrMap : List (String × List String) → String → String → List (String × List String)
  | [], k, v => [(k, [v])]
  | (k', vs) :: rest, k, v =>
    if k' = k then (k', vs ++ [v]) :: rest else (k', vs) :: addToStrMap rest k v

/-- The `entity_map` lookup of `find_pneumonia_patterns`: Python dict
comprehension semantics, so the last entity with a given id wins; a
missing id is a KeyError. -/
def entityLookup : List Entity → String → Option Entity
  | [], _ => none
  | e :: rest, i =>
    match entityLookup rest i with
    | some x => some x
    | none => if e.id = i then some e else none

/-- One iteration of the relation loop of `find_pneumonia_patterns`,
parameterised by the vocabulary list `terms`: resolve both endpoints
in `entity_map` (KeyError on a dangling id), then dispatch on the
relation kind; a kind outside the three dispatch cases falls through
silently. -/
def processRelationT (terms : List String) (entities : List Entity)
    (pm : Patterns) (r : Relation) : Except String Patterns :=
  match entityLookup entities r.source with
  | none => Except.error ("KeyError: " ++ r.source)
  | some source =>
    match entityLookup entities r.target with
    | none => Except.error ("KeyError: " ++ r.target)
    | some target =>
      if r.type = "located_at" then
        if hasSub source.type "Observation" then
          Except.ok { pm with findings := addToFindings pm.findings source.text (FVal.str target.text) }
        else Except.ok pm
      else if r.type = "modify" then
        if hasSub source.type "Observation" && hasSub target.type "Observation" then
          Except.ok { pm with modifiers := addToStrMap pm.modifiers target.text source.text }
        else Except.ok pm
      else if r.type = "suggestive_of" then
        if terms.any (fun t => hasSub (pyLower source.text) t) then
          Except.ok { pm with findings := addToFindings pm.findings "suggestive_patterns" (FVal.pair source.text target.text) }
        else Except.ok pm
      else Except.ok pm

/-- The relation loop of `find_pneumonia_patterns` with an explicit
vocabulary list. -/
def findPatternsT (terms : List String) (entities : List Entity)
    (relations : List Relation) : Except String Patterns :=
  relations.foldlM (processRelationT terms entities) emptyPatterns

/-- `RadGraphAnalyzer.find_pneumonia_patterns`: fold the relation
dispatch over the relations in document order, starting from empty
mappings. The final Python `dict(...)` conversion is the identity on
the association-list model. -/
def find_pneumonia_patterns (entities : List Entity) (relations : List Relation) :
    Except String Patterns :=
  findPatternsT pneumonia_terms entities relations

/-- One observation record of the `observations` feature of
`extract_features`. -/
structure ObsRecord where
  text : String
  certainty : String
  locations : List String
  modifiers : List String
  suggestions : List String
deriving DecidableEq

/-- The empty observation record (the `defaultdict` default). -/
def emptyObs : ObsRecord := ⟨"", "", [], [], []⟩

/-- Generic insertion-ordered association-list lookup. -/
def lookupAssoc {α : Type} : List (String × α) → String → Option α
  | [], _ => none
  | (k', v) :: rest, k => if k' = k then some v else lookupAssoc rest k

/-- Generic insertion-ordered association-list update: replace the
value in place when the key exists, append the entry otherwise
(Python dict assignment semantics). -/
def setAssoc {α : Type} : List (String × α) → String → α → List (String × α)
  | [], k, v => [(k, v)]
  | (k', v') :: rest, k, v =>
    if k' = k then (k', v) :: rest else (k', v') :: setAssoc rest k v

/-- The `networkx.DiGraph` built by `extract_features`: node
attributes (`_node`) and the successor structure (`_succ`), both
insertion-ordered. Each adjacency entry maps a source id to its
ordered `(target id, edge type)` list. -/
structure Graph where
  nodes : List (String × Entity)
  adj : List (String × List (String × String))
deriving DecidableEq

/-- `G.add_node(id, **entity)`: store (or overwrite) the node
attributes and make sure a successor entry exists. -/
def addNode (g : Graph) (e : Entity) : Graph :=
  { nodes := setAssoc g.nodes e.id e
    adj := if (lookupAssoc g.adj e.id).isSome then g.adj else g.adj ++ [(e.id, [])] }

/-- Update one successor list for `add_edge`: overwrite the edge type
in place when the target already exists, append otherwise. -/
def setEdgeIn : List (String × String) → String → String → List (String × String)
  | [], v, t => [(v, t)]
  | (v', t') :: rest, v, t =>
    if v' = v then (v', t) :: rest else (v', t') :: setEdgeIn rest v t

/-- `G.add_edge(source, target, type=...)`: update the successor
structure; endpoints missing from `_succ` get fresh empty entries
(nx also adds attribute-less nodes, which the node-attribute lookup
below treats as absent, matching the KeyError on reading their
attributes). -/
def addEdge (g : Graph) (r : Relation) : Graph :=
  let adj1 :=
    match lookupAssoc g.adj r.source with
    | some l => setAssoc g.adj r.source (setEdgeIn l r.target r.type)
    | none => g.adj ++ [(r.source, [(r.target, r.type)])]
  { g with
    adj := if (lookupAssoc adj1 r.target).isSome then adj1 else adj1 ++ [(r.target, [])] }

/-- The graph construction loop of `extract_features`: all entities
as nodes first, then all relations as typed edges. -/
def buildGraph (entities : List Entity) (relations : List Relation) : Graph :=
  relations.foldl addEdge (entities.foldl addNode ⟨[], []⟩)

/-- The body of the observation loop of `extract_features` for one
entity: Observation entities get a record holding their text, the
certainty part of their label (`split("::")[1]`, IndexError when the
label has no separator), and the texts of their out-neighbours
grouped by edge type (KeyError when a neighbour has no node
attributes). -/
def obsStep (g : Graph) (acc : List (String × ObsRecord)) (e : Entity) :
    Except String (List (String × ObsRecord)) :=
  if hasSub e.type "Observation" then do
    let cert ←
      match pyIndex1 (pySplitColons e.type) with
      | some c => Except.ok c
      | none => Except.error "IndexError: list index out of range"
    let base := (lookupAssoc acc e.id).getD emptyObs
    let start := { base with text := e.text, certainty := cert }
    let edges := (lookupAssoc g.adj e.id).getD []
    let final ← edges.foldlM
      (fun r nb =>
        match lookupAssoc g.nodes nb.1 with
        | none => Except.error "KeyError: text"
        | some nbe =>
          if nb.2 = "located_at" then
            Except.ok { r with locations := r.locations ++ [nbe.text] }
          else if nb.2 = "modify" then
            Except.ok { r with modifiers := r.modifiers ++ [nbe.text] }
          else if nb.2 = "suggestive_of" then
            Except.ok { r with suggestions := r.suggestions ++ [nbe.text] }
          else Except.ok r)
      start
    Except.ok (setAssoc acc e.id final)
  else Except.ok acc

/-- The `graph_metrics` feature of `extract_features`. -/
structure GraphMetrics where
  num_entities : Nat
  num_relations : Nat
  num_anatomical_sites : Nat
  num_observations : Nat
deriving DecidableEq

/-- The `num_anatomical_sites` metric of `extract_features`: entities
whose type label contains `Anatomy` as a substring. -/
def anatCount (entities : List Entity) : Nat :=
  (entities.filter (fun e => hasSub e.type "Anatomy")).length

/-- The `num_observations` metric of `extract_features`: entities
whose type label contains `Observation` as a substring. -/
def obsCount (entities : List Entity) : Nat :=
  (entities.filter (fun e => hasSub e.type "Observation")).length

/-- Number of entities whose type label contains the `::` separator
(the population `analyze_certainty` actually counts). -/
def sepCount (entities : List Entity) : Nat :=
  (entities.filter (fun e => hasSub e.type "::")).length

/-- The feature bundle returned by `extract_features`. -/
structure Features where
  observations : List (String × ObsRecord)
  patterns : Patterns
  certainty_analysis : List (String × Nat)
  graph_metrics : GraphMetrics
deriving DecidableEq

/-- `RadGraphAnalyzer.extract_features`: parse the extract, build the
document graph, run the pattern analyzer and the certainty counter,
collect the per-observation records, and assemble the feature bundle
with the four graph metrics (the Anatomy and Observation counts are
substring tests on the type label). -/
def extract_features (extract : Extract) : Except String Features := do
  let (entities, relations) := parse_radgraph_format extract
  let g := buildGraph entities relations
  let patterns ← find_pneumonia_patterns entities relations
  let certainty := analyze_certainty entities
  let observations ← entities.foldlM (obsStep g) []
  Except.ok
    { observations := observations
      patterns := patterns
      certainty_analysis := certainty
      graph_metrics :=
        { num_entities := entities.length
          num_relations := relations.length
          num_anatomical_sites := anatCount entities
          num_observations := obsCount entities } }

/-- The sample RadGraph extract from the notebook (`main`). -/
def sample_extract : Extract :=
  { text := "no evidence of acute cardiopulmonary process moderate hiatal hernia"
    entities :=
      [("1", { label := "Observation::definitely absent", start_ix := 3, end_ix := 3,
               relations := [("modify", "3")] }),
       ("2", { label := "Anatomy::definitely present", start_ix := 4, end_ix := 4,
               relations := [] }),
       ("3", { label := "Observation::definitely absent", start_ix := 5, end_ix := 5,
               relations := [("located_at", "2")] }),
       ("4", { label := "Observation::definitely present", start_ix := 6, end_ix := 6,
               relations := [("modify", "5")] }),
       ("5", { label := "Observation::definitely present", start_ix := 7, end_ix := 8,
               relations := [] })]}

/-- Sum of the values of a histogram (association list of counts). -/
def sumCounts (l : List (String × Nat)) : Nat :=
  (l.map (fun p => p.2)).sum

/-- Total number of values stored across the findings mapping. -/
def fvCount (f : List (String × List FVal)) : Nat :=
  (f.map (fun p => p.2.length)).sum

/-- An extract whose only entity carries a relation to the unknown
entity id 9. -/
def ext3 : Extract :=
  { text := "a b"
    entities :=
      [("1", { label := "Observation::definitely present", start_ix := 0, end_ix := 0,
               relations := [("modify", "9")] })] }

/-- An extract whose only entity has a token span (5..7) entirely
beyond the two tokens of the text. -/
def ext4 : Extract :=
  { text := "chest xray"
    entities :=
      [("1", { label := "Observation::definitely present", start_ix := 5, end_ix := 7,
               relations := [] })] }

/-- The entity the parser produces for `ext4`: empty text, indices
kept. -/
def ent4 : Entity :=
  { id := "1", text := "", type := "Observation::definitely present", start_ix := 5, end_ix := 7 }

/-- An extract using a type label outside `ENTITY_TYPES` and a
relation kind outside `RELATION_TYPES`. -/
def ext6 : Extract :=
  { text := "foo bar"
    entities :=
      [("1", { label := "Alien::maybe", start_ix := 0, end_ix := 0,
               relations := [("blah", "2")] }),
       ("2", { label := "Thing", start_ix := 1, end_ix := 1, relations := [] })] }

/-- The Pattern Bundle the analyzer produces for the sample extract. -/
def sample_patterns : Patterns :=
  { findings := [("process", [FVal.str "cardiopulmonary"])]
    locations := []
    modifiers := [("process", ["acute"]), ("hiatal hernia", ["moderate"])] }

/-- The full feature bundle the analyzer produces for the sample
extract (the values printed by the notebook cell). -/
def sample_features : Features :=
  { observations :=
      [("1", { text := "acute", certainty := "definitely absent",
               locations := [], modifiers := ["process"], suggestions := [] }),
       ("3", { text := "process", certainty := "definitely absent",
               locations := ["cardiopulmonary"], modifiers := [], suggestions := [] }),
       ("4", { text := "moderate", certainty := "definitely present",
               locations := [], modifiers := ["hiatal hernia"], suggestions := [] }),
       ("5", { text := "hiatal hernia", certainty := "definitely present",
               locations := [], modifiers := [], suggestions := [] })]
    patterns := sample_patterns
    certainty_analysis := [("definitely absent", 2), ("definitely present", 3)]
    graph_metrics :=
      { num_entities := 5, num_relations := 3, num_anatomical_sites := 1, num_observations := 4 } }

/-- Bumping a key adds exactly one to the total count of the
histogram. -/
theorem sum_bumpCount (acc : List (String × Nat)) (k : String) :
    sumCounts (bumpCount acc k) = sumCounts acc + 1 := by
  induction acc with
  | nil => simp [bumpCount, sumCounts]
  | cons p rest ih =>
    obtain ⟨k', n⟩ := p
    by_cases h : k' = k
    · simp [bumpCount, h, sumCounts]
      omega
    · simp only [bumpCount, if_neg h, sumCounts, List.map_cons, List.sum_cons] at *
      omega

/-- The certainty fold adds one to the running total for every entity
whose type label contains the separator. -/
theorem certainty_foldl (entities : List Entity) :
    ∀ acc : List (String × Nat),
      sumCounts (entities.foldl
        (fun acc e =>
          if hasSub e.type "::" then
            bumpCount acc ((pyIndex1 (pySplitColons e.type)).getD "")
          else acc) acc)
        = sumCounts acc + sepCount entities := by
  induction entities with
  | nil => intro acc; simp [sepCount]
  | cons e es ih =>
    intro acc
    simp only [List.foldl_cons, sepCount, List.filter_cons]
    by_cases h : hasSub e.type "::" = true
    · rw [if_pos h, if_pos h, ih, sum_bumpCount]
      simp only [List.length_cons, sepCount]
      omega
    · rw [if_neg h, if_neg h, ih]
      simp [sepCount]

/-- Bind on `Except` after a success just continues. -/
theorem except_bind_ok {e : Type} {a b : Type} (x : a) (k : a → Except e b) :
    (Except.ok x >>= k) = k x := rfl

/-- Bind on `Except` after an error keeps the error. -/
theorem except_bind_error {e : Type} {a b : Type} (msg : e) (k : a → Except e b) :
    ((Except.error msg : Except e a) >>= k) = Except.error msg := rfl

/-- A successful relation-dispatch step never touches the locations
mapping. -/
theorem locations_step {terms : List String} {entities : List Entity}
    {pm pm' : Patterns} {r : Relation}
    (h : processRelationT terms entities pm r = Except.ok pm') :
    pm'.locations = pm.locations := by
  unfold processRelationT at h
  repeat' split at h
  all_goals
    first
      | exact Except.noConfusion h
      | (injection h with h; subst h; rfl)

/-- Folding the relation dispatch preserves the locations mapping of
the accumulator. -/
theorem locations_fold {terms : List String} {entities : List Entity} :
    ∀ (relations : List Relation) (pm0 pm : Patterns),
      relations.foldlM (processRelationT terms entities) pm0 = Except.ok pm →
      pm.locations = pm0.locations := by
  intro relations
  induction relations with
  | nil =>
    intro pm0 pm h
    rw [List.foldlM_nil] at h
    cases h
    rfl
  | cons r rs ih =>
    intro pm0 pm h
    rw [List.foldlM_cons] at h
    cases hstep : processRelationT terms entities pm0 r with
    | error msg =>
      rw [hstep, except_bind_error] at h
      exact absurd h (by simp)
    | ok pm1 =>
      rw [hstep, except_bind_ok] at h
      exact (ih pm1 pm h).trans (locations_step hstep)

/-- `List.any` only depends on the membership of the list, so a
permutation of the vocabulary leaves it unchanged. -/
theorem any_of_perm {t1 t2 : List String} (h : t1.Perm t2) (p : String → Bool) :
    t1.any p = t2.any p := by
  rw [Bool.eq_iff_iff, List.any_eq_true, List.any_eq_true]
  constructor
  · rintro ⟨x, hx, hp⟩
    exact ⟨x, h.mem_iff.mp hx, hp⟩
  · rintro ⟨x, hx, hp⟩
    exact ⟨x, h.mem_iff.mpr hx, hp⟩

/-- The relation-dispatch step is invariant under permutations of the
vocabulary list. -/
theorem processRelationT_perm {t1 t2 : List String} (h : t1.Perm t2)
    (entities : List Entity) (pm : Patterns) (r : Relation) :
    processRelationT t1 entities pm r = processRelationT t2 entities pm r := by
  unfold processRelationT
  cases entityLookup entities r.source with
  | none => rfl
  | some src =>
    cases entityLookup entities r.target with
    | none => rfl
    | some tgt =>
      dsimp only
      rw [any_of_perm h]

/-- When both endpoints resolve, the relation-dispatch step always
succeeds (every dispatch branch is pure). -/
theorem processRelationT_isOk {terms : List String} {entities : List Entity}
    {pm : Patterns} {r : Relation} {src tgt : Entity}
    (hs : entityLookup entities r.source = some src)
    (ht : entityLookup entities r.target = some tgt) :
    ∃ pm', processRelationT terms entities pm r = Except.ok pm' := by
  unfold processRelationT
  rw [hs, ht]
  dsimp only
  repeat' split
  all_goals exact ⟨_, rfl⟩

/-- When the source endpoint does not resolve, the relation-dispatch
step raises the KeyError for it. -/
theorem processRelationT_src_err {terms : List String} {entities : List Entity}
    {pm : Patterns} {r : Relation}
    (hs : entityLookup entities r.source = none) :
    processRelationT terms entities pm r = Except.error ("KeyError: " ++ r.source) := by
  unfold processRelationT
  rw [hs]

/-- When the source resolves but the target does not, the
relation-dispatch step raises the KeyError for the target. -/
theorem processRelationT_tgt_err {terms : List String} {entities : List Entity}
    {pm : Patterns} {r : Relation} {src : Entity}
    (hs : entityLookup entities r.source = some src)
    (ht : entityLookup entities r.target = none) :
    processRelationT terms entities pm r = Except.error ("KeyError: " ++ r.target) := by
  unfold processRelationT
  rw [hs, ht]

/-- Appending one value to the findings mapping grows its total value
count by exactly one. -/
theorem fvCount_addToFindings (f : List (String × List FVal)) (k : String) (v : FVal) :
    fvCount (addToFindings f k v) = fvCount f + 1 := by
  induction f with
  | nil => simp [addToFindings, fvCount]
  | cons p rest ih =>
    obtain ⟨k', vs⟩ := p
    by_cases h : k' = k
    · simp [addToFindings, h, fvCount]
      omega
    · simp only [addToFindings, if_neg h, fvCount, List.map_cons, List.sum_cons] at *
      omega

/-- C1: on the sample document from the notebook, with its five
entities and three relations, `extract_features` succeeds and its
Pattern Bundle has findings mapping process to cardiopulmonary,
modifiers mapping process to acute and hiatal hernia to moderate, the
Certainty Histogram counts definitely absent twice and definitely
present three times, and the graph metrics are 5 entities, 3
relations, 1 anatomical site and 4 observations. -/
theorem C1_sample_features :
    extract_features sample_extract = Except.ok sample_features
    ∧ sample_features.patterns.findings = [("process", [FVal.str "cardiopulmonary"])]
    ∧ sample_features.patterns.modifiers
        = [("process", ["acute"]), ("hiatal hernia", ["moderate"])]
    ∧ sample_features.certainty_analysis
        = [("definitely absent", 2), ("definitely present", 3)]
    ∧ sample_features.graph_metrics
        = { num_entities := 5, num_relations := 3,
            num_anatomical_sites := 1, num_observations := 4 } := by
  refine ⟨?_, ?_, ?_, ?_, ?_⟩ <;> decide

/-- C2 (counterexample): on the sample document the Certainty
Histogram values sum to 5 while only 4 entities are Observations, so
the histogram total does not equal the number of Observation
entities; the Anatomy entity also contributes. -/
theorem C2_counterexample :
    sumCounts (analyze_certainty (parse_radgraph_format sample_extract).1) = 5
    ∧ obsCount (parse_radgraph_format sample_extract).1 = 4 := by
  constructor <;> decide

/-- C2 (amended): the Certainty Histogram values sum to the number of
entities whose type label contains the `::` separator, whatever their
category; Anatomy entities carrying a certainty qualifier are counted
too, so the total exceeds the Observation count whenever such an
Anatomy entity is present. -/
theorem C2_certainty_sum (entities : List Entity) :
    sumCounts (analyze_certainty entities) = sepCount entities := by
  have h := certainty_foldl entities []
  simpa [analyze_certainty, sumCounts] using h

/-- C9: the pattern analysis does not depend on the iteration order
of the pneumonia vocabulary set (the only hash-ordered collection the
analyzer iterates): permuting the vocabulary list yields the same
output on every entity and relation list. Parsing itself is a pure
function of the document-ordered input in this model. -/
theorem C9_order_invariance :
    ∀ t1 t2 : List String, t1.Perm t2 →
      ∀ (entities : List Entity) (relations : List Relation),
        findPatternsT t1 entities relations = findPatternsT t2 entities relations := by
  intro t1 t2 h entities relations
  have key : ∀ (rs : List Relation) (pm0 : Patterns),
      rs.foldlM (processRelationT t1 entities) pm0
        = rs.foldlM (processRelationT t2 entities) pm0 := by
    intro rs
    induction rs with
    | nil => intro pm0; rfl
    | cons r rest ih =>
      intro pm0
      rw [List.foldlM_cons, List.foldlM_cons, processRelationT_perm h]
      cases hv : processRelationT t2 entities pm0 r with
      | error msg => rw [except_bind_error, except_bind_error]
      | ok pm1 =>
        rw [except_bind_ok, except_bind_ok]
        exact ih pm1
  exact key relations emptyPatterns

/-- C9 (witness): a concrete transposition of two vocabulary terms
leaves the analyzer output on the sample document unchanged. -/
theorem C9_order_invariance_witness :
    findPatternsT ["focal", "pneumonia"]
        (parse_radgraph_format sample_extract).1 (parse_radgraph_format sample_extract).2
      = findPatternsT ["pneumonia", "focal"]
        (parse_radgraph_format sample_extract).1 (parse_radgraph_format sample_extract).2 :=
  C9_order_invariance _ _ (List.Perm.swap "pneumonia" "focal" []) _ _

/-- C10: whenever `find_pneumonia_patterns` succeeds, the locations
mapping of the returned Pattern Bundle is empty: no dispatch branch
ever writes to it. -/
theorem C10_locations_empty (entities : List Entity) (relations : List Relation)
    (pm : Patterns) (h : find_pneumonia_patterns entities relations = Except.ok pm) :
    pm.locations = [] :=
  locations_fold relations emptyPatterns pm h

/-- C10 (witness): on the sample document the analyzer returns the
sample Pattern Bundle and its locations mapping is indeed empty. -/
theorem C10_locations_empty_witness : sample_patterns.locations = [] :=
  C10_locations_empty (parse_radgraph_format sample_extract).1
    (parse_radgraph_format sample_extract).2 sample_patterns (by decide)

/-- If any relation in the list has an unresolvable endpoint, the
relation fold ends in an error (the fold stops at the first failing
lookup and errors are absorbing). -/
theorem dangling_fold_err {terms : List String} {entities : List Entity} :
    ∀ (rs : List Relation) (pm0 : Patterns),
      (∃ r ∈ rs, entityLookup entities r.source = none
                 ∨ entityLookup entities r.target = none) →
      ∃ msg, rs.foldlM (processRelationT terms entities) pm0 = Except.error msg := by
  intro rs
  induction rs with
  | nil =>
    rintro pm0 ⟨r, hr, _⟩
    exact absurd hr (List.not_mem_nil r)
  | cons r rest ih =>
    intro pm0 hex
    rw [List.foldlM_cons]
    cases hsrc : entityLookup entities r.source with
    | none =>
      refine ⟨"KeyError: " ++ r.source, ?_⟩
      rw [processRelationT_src_err hsrc, except_bind_error]
    | some src =>
      cases htgt : entityLookup entities r.target with
      | none =>
        refine ⟨"KeyError: " ++ r.target, ?_⟩
        rw [processRelationT_tgt_err hsrc htgt, except_bind_error]
      | some tgt =>
        obtain ⟨pm1, hok⟩ := @processRelationT_isOk terms entities pm0 r src tgt hsrc htgt
        rw [hok, except_bind_ok]
        apply ih
        obtain ⟨r', hr', hfail⟩ := hex
        rcases List.mem_cons.mp hr' with rfl | hmem
        · rw [hsrc, htgt] at hfail
          rcases hfail with h | h <;> exact absurd h (by simp)
        · exact ⟨r', hmem, hfail⟩

/-- C3 (counterexample): the parser emits the relation from entity 1
to the unknown id 9 as-is, even though no produced entity has id 9:
a dangling relation survives parsing without any error. -/
theorem C3_counterexample :
    (parse_radgraph_format ext3).2 = [{ source := "1", target := "9", type := "modify" }]
    ∧ ((parse_radgraph_format ext3).1.map Entity.id).contains "9" = false := by
  constructor <;> decide

/-- C3 (amended): the parser performs no endpoint validation, so a
relation referencing an unknown entity id is produced unchanged; when
the pattern analyzer later reaches any relation with an unresolvable
endpoint it fails with the uncaught mapping lookup error (KeyError),
not a DanglingRelation error, and nothing is silently dropped. -/
theorem C3_dangling_relations :
    (∀ (entities : List Entity) (relations : List Relation),
       (∃ r ∈ relations, entityLookup entities r.source = none
                         ∨ entityLookup entities r.target = none) →
       (find_pneumonia_patterns entities relations).isOk = false)
    ∧ find_pneumonia_patterns (parse_radgraph_format ext3).1 (parse_radgraph_format ext3).2
        = Except.error "KeyError: 9" := by
  constructor
  · intro entities relations hex
    obtain ⟨msg, hmsg⟩ :=
      @dangling_fold_err pneumonia_terms entities relations emptyPatterns hex
    show (relations.foldlM (processRelationT pneumonia_terms entities) emptyPatterns).isOk
        = false
    rw [hmsg]
    rfl
  · decide

/-- C3 (witness): on the concrete dangling extract the analyzer fails
rather than succeeding. -/
theorem C3_dangling_relations_witness :
    (find_pneumonia_patterns (parse_radgraph_format ext3).1
        (parse_radgraph_format ext3).2).isOk = false :=
  C3_dangling_relations.1 _ _ (by decide)

/-- C4 (counterexample): for the extract whose single entity has span
5..7 over a two-token text, the parser produces an entity (with empty
text) instead of failing with any error. -/
theorem C4_counterexample :
    (parse_radgraph_format ext4).1 = [ent4] ∧ ent4.text = "" := by
  constructor <;> decide

/-- C4 (amended): the parser validates nothing about token spans:
when an entity entry has start_ix at or beyond the token count, the
Python slice silently clips and the parser still produces the
corresponding entity, with empty text. -/
theorem C4_out_of_range_truncates :
    ∀ (ext : Extract) (p : String × EntityInfo), p ∈ ext.entities →
      (pySplit ext.text).length ≤ p.2.start_ix →
      mkEntity (pySplit ext.text) p ∈ (parse_radgraph_format ext).1
      ∧ (mkEntity (pySplit ext.text) p).text = "" := by
  intro ext p hp hlen
  constructor
  · show mkEntity (pySplit ext.text) p ∈ (parse_radgraph_format ext).1
    simp only [parse_radgraph_format]
    exact List.mem_map_of_mem _ hp
  · simp [mkEntity, List.drop_eq_nil_of_le hlen, pyJoin]

/-- C4 (witness): on the concrete out-of-range extract the produced
entity is a member of the parser output and has empty text. -/
theorem C4_out_of_range_truncates_witness :
    mkEntity (pySplit ext4.text)
        ("1", { label := "Observation::definitely present", start_ix := 5, end_ix := 7,
                relations := [] })
      ∈ (parse_radgraph_format ext4).1
    ∧ (mkEntity (pySplit ext4.text)
        ("1", { label := "Observation::definitely present", start_ix := 5, end_ix := 7,
                relations := [] })).text = "" :=
  C4_out_of_range_truncates ext4 _ (by decide) (by decide)

/-- C6 (counterexample): a relation kind and entity labels outside
the declared enumerations flow through the analyzer with no error:
the unknown relation kind is silently skipped (empty Pattern Bundle)
and the unknown labels are silently counted or ignored. -/
theorem C6_counterexample :
    RELATION_TYPES.contains "blah" = false
    ∧ ENTITY_TYPES.contains "Alien::maybe" = false
    ∧ ENTITY_TYPES.contains "Thing" = false
    ∧ find_pneumonia_patterns (parse_radgraph_format ext6).1 (parse_radgraph_format ext6).2
        = Except.ok emptyPatterns
    ∧ analyze_certainty (parse_radgraph_format ext6).1 = [("maybe", 1)] := by
  refine ⟨?_, ?_, ?_, ?_, ?_⟩ <;> decide

/-- C6 (amended): the enumerations are declared but never enforced: a
relation whose kind is outside RELATION_TYPES is silently skipped by
the dispatch (the Pattern Bundle passes through unchanged), and the
parser copies every type label through without consulting
ENTITY_TYPES, so no UnknownTypeLabel or UnknownRelationKind error can
ever be raised. -/
theorem C6_no_validation :
    (∀ (entities : List Entity) (pm : Patterns) (r : Relation) (src tgt : Entity),
       entityLookup entities r.source = some src →
       entityLookup entities r.target = some tgt →
       r.type ∉ RELATION_TYPES →
       processRelationT pneumonia_terms entities pm r = Except.ok pm)
    ∧ (∀ ext : Extract,
       ((parse_radgraph_format ext).1).map Entity.type
         = ext.entities.map (fun p => p.2.label)) := by
  constructor
  · intro entities pm r src tgt hs ht hmem
    simp only [RELATION_TYPES, List.mem_cons, List.not_mem_nil, or_false, not_or] at hmem
    obtain ⟨hsug, hloc, hmod⟩ := hmem
    unfold processRelationT
    rw [hs, ht]
    dsimp only
    rw [if_neg hloc, if_neg hmod, if_neg hsug]
  · intro ext
    simp [parse_radgraph_format, mkEntity, List.map_map, Function.comp]

/-- C6 (witness): the concrete unknown relation kind of `ext6` is
skipped silently, leaving the empty Pattern Bundle untouched. -/
theorem C6_no_validation_witness :
    processRelationT pneumonia_terms (parse_radgraph_format ext6).1 emptyPatterns
        { source := "1", target := "2", type := "blah" }
      = Except.ok emptyPatterns :=
  C6_no_validation.1 _ _ _
    (Entity.mk "1" "foo" "Alien::maybe" 0 0) (Entity.mk "2" "bar" "Thing" 1 1)
    (by decide) (by decide) (by decide)

/-- C7: attachment direction of the two dispatch branches. A modify
relation between two Observation entities appends the source text to
the modifiers list keyed by the target text, while a located_at
relation with an Observation source appends the target text to the
findings list keyed by the source text, for all inputs. -/
theorem C7_attachment_direction :
    (∀ (entities : List Entity) (pm : Patterns) (r : Relation) (src tgt : Entity),
       entityLookup entities r.source = some src →
       entityLookup entities r.target = some tgt →
       r.type = "modify" →
       hasSub src.type "Observation" = true →
       hasSub tgt.type "Observation" = true →
       processRelationT pneumonia_terms entities pm r
         = Except.ok { pm with modifiers := addToStrMap pm.modifiers tgt.text src.text })
    ∧ (∀ (entities : List Entity) (pm : Patterns) (r : Relation) (src tgt : Entity),
       entityLookup entities r.source = some src →
       entityLookup entities r.target = some tgt →
       r.type = "located_at" →
       hasSub src.type "Observation" = true →
       processRelationT pneumonia_terms entities pm r
         = Except.ok { pm with findings := addToFindings pm.findings src.text (FVal.str tgt.text) }) := by
  constructor
  · intro entities pm r src tgt hs ht hty hso hto
    unfold processRelationT
    rw [hs, ht]
    dsimp only
    rw [hty]
    rw [if_neg (by decide : ¬(("modify" : String) = "located_at"))]
    rw [if_pos rfl]
    rw [if_pos (by simp [hso, hto])]
  · intro entities pm r src tgt hs ht hty hso
    unfold processRelationT
    rw [hs, ht]
    dsimp only
    rw [hty, if_pos rfl, if_pos hso]

/-- C7 (witness): on the sample document, the modify relation from
acute to process files acute under the modifiers of process, and the
located_at relation from process to cardiopulmonary files
cardiopulmonary under the findings of process. -/
theorem C7_attachment_direction_witness :
    processRelationT pneumonia_terms (parse_radgraph_format sample_extract).1 emptyPatterns
        { source := "1", target := "3", type := "modify" }
      = Except.ok { emptyPatterns with
          modifiers := addToStrMap emptyPatterns.modifiers "process" "acute" }
    ∧ processRelationT pneumonia_terms (parse_radgraph_format sample_extract).1 emptyPatterns
        { source := "3", target := "2", type := "located_at" }
      = Except.ok { emptyPatterns with
          findings := addToFindings emptyPatterns.findings "process" (FVal.str "cardiopulmonary") } :=
  ⟨C7_attachment_direction.1 _ _ _
      (Entity.mk "1" "acute" "Observation::definitely absent" 3 3)
      (Entity.mk "3" "process" "Observation::definitely absent" 5 5)
      (by decide) (by decide) rfl (by decide) (by decide),
   C7_attachment_direction.2 _ _ _
      (Entity.mk "3" "process" "Observation::definitely absent" 5 5)
      (Entity.mk "2" "cardiopulmonary" "Anatomy::definitely present" 4 4)
      (by decide) (by decide) rfl (by decide)⟩

/-- C8: for a suggestive_of relation with both endpoints resolved,
the (source text, target text) pair is appended under the
suggestive_patterns key of the findings mapping exactly when the
lowercased source text contains some vocabulary term as a substring
(case-insensitive substring matching, not exact matching). -/
theorem C8_suggestive_iff :
    ∀ (entities : List Entity) (pm : Patterns) (r : Relation) (src tgt : Entity),
      entityLookup entities r.source = some src →
      entityLookup entities r.target = some tgt →
      r.type = "suggestive_of" →
      (processRelationT pneumonia_terms entities pm r
          = Except.ok { pm with findings := addToFindings pm.findings "suggestive_patterns" (FVal.pair src.text tgt.text) }
        ↔ ∃ term ∈ pneumonia_terms, hasSub (pyLower src.text) term = true) := by
  intro entities pm r src tgt hs ht hty
  unfold processRelationT
  rw [hs, ht]
  dsimp only
  rw [hty]
  rw [if_neg (by decide : ¬(("suggestive_of" : String) = "located_at"))]
  rw [if_neg (by decide : ¬(("suggestive_of" : String) = "modify"))]
  rw [if_pos rfl]
  cases hany : pneumonia_terms.any (fun t => hasSub (pyLower src.text) t) with
  | true =>
    apply iff_of_true
    · rw [if_pos rfl]
    · exact List.any_eq_true.mp hany
  | false =>
    apply iff_of_false
    · rw [if_neg (by simp)]
      intro hcontra
      have heq := Except.ok.inj hcontra
      have hfe : pm.findings
          = addToFindings pm.findings "suggestive_patterns" (FVal.pair src.text tgt.text) :=
        congrArg Patterns.findings heq
      have hcount := fvCount_addToFindings pm.findings "suggestive_patterns"
        (FVal.pair src.text tgt.text)
      rw [← hfe] at hcount
      omega
    · rintro ⟨term, hterm, hsubm⟩
      have htrue := List.any_eq_true.mpr ⟨term, hterm, hsubm⟩
      rw [hany] at htrue
      exact Bool.false_ne_true htrue

/-- C8 (witness): the capitalised source text Consolidation noted
matches the lowercase vocabulary term consolidation by substring, so
the pair is recorded. -/
theorem C8_suggestive_iff_witness :
    processRelationT pneumonia_terms
        [Entity.mk "s" "Consolidation noted" "Observation::definitely present" 0 1,
         Entity.mk "t" "pneumonia" "Observation::uncertain" 2 2]
        emptyPatterns { source := "s", target := "t", type := "suggestive_of" }
      = Except.ok { emptyPatterns with findings := addToFindings emptyPatterns.findings "suggestive_patterns" (FVal.pair "Consolidation noted" "pneumonia") } :=
  (C8_suggestive_iff _ _ _
      (Entity.mk "s" "Consolidation noted" "Observation::definitely present" 0 1)
      (Entity.mk "t" "pneumonia" "Observation::uncertain" 2 2)
      (by decide) (by decide) rfl).mpr (by decide)

/-- `String.mk` undoes `String.toList`. -/
theorem strMk_toList (s : String) : String.mk s.toList = s := rfl

/-- `toList` distributes over string append. -/
theorem toList_of_append (a b : String) : (a ++ b).toList = a.toList ++ b.toList :=
  String.data_append a b

/-- Every token cut out by the whitespace splitter is nonempty and
contains no whitespace characters (assuming the pending run is
whitespace-free). -/
theorem splitWSAux_good :
    ∀ (l acc : List Char), (∀ c ∈ acc, c.isWhitespace = false) →
      ∀ t ∈ splitWSAux l acc, t ≠ [] ∧ ∀ c ∈ t, c.isWhitespace = false := by
  intro l
  induction l with
  | nil =>
    intro acc hacc t ht
    simp only [splitWSAux] at ht
    split at ht
    · exact absurd ht (List.not_mem_nil t)
    · next hne =>
      rw [List.mem_singleton] at ht
      subst ht
      refine ⟨by simpa using hne, ?_⟩
      intro c hc
      exact hacc c (List.mem_reverse.mp hc)
  | cons c cs ih =>
    intro acc hacc t ht
    simp only [splitWSAux] at ht
    by_cases hw : c.isWhitespace = true
    · rw [if_pos hw] at ht
      by_cases ha : acc = ([] : List Char)
      · rw [if_pos ha] at ht
        exact ih [] (by intro c' hc'; exact absurd hc' (List.not_mem_nil c')) t ht
      · rw [if_neg ha] at ht
        rcases List.mem_cons.mp ht with rfl | hmem
        · refine ⟨by simpa using ha, ?_⟩
          intro c' hc'
          exact hacc c' (List.mem_reverse.mp hc')
        · exact ih [] (by intro c' hc'; exact absurd hc' (List.not_mem_nil c')) t hmem
    · rw [if_neg hw] at ht
      refine ih (c :: acc) ?_ t ht
      intro c' hc'
      rcases List.mem_cons.mp hc' with rfl | hmem
      · simpa using hw
      · exact hacc c' hmem

/-- Feeding a whitespace-free run into the splitter just moves it
into the pending accumulator. -/
theorem splitWSAux_append :
    ∀ t : List Char, (∀ c ∈ t, c.isWhitespace = false) →
      ∀ cs acc : List Char, splitWSAux (t ++ cs) acc = splitWSAux cs (t.reverse ++ acc) := by
  intro t
  induction t with
  | nil => intro _ cs acc; simp
  | cons c t' ih =>
    intro hws cs acc
    have hc : c.isWhitespace = false := hws c (List.mem_cons_self c t')
    simp only [List.cons_append, splitWSAux]
    rw [if_neg (by simp [hc])]
    show splitWSAux (t' ++ cs) (c :: acc) = splitWSAux cs ((c :: t').reverse ++ acc)
    rw [ih (fun c' hc' => hws c' (List.mem_cons_of_mem c hc')) cs (c :: acc)]
    simp

/-- Round trip: splitting the space-join of nonempty whitespace-free
tokens recovers exactly those tokens (the Python invariant behind the
token-count property). -/
theorem pySplit_pyJoin :
    ∀ l : List String,
      (∀ t ∈ l, t.toList ≠ [] ∧ ∀ c ∈ t.toList, c.isWhitespace = false) →
      pySplit (pyJoin l) = l
  | [], _ => by decide
  | [t], h => by
    have ht := h t (List.mem_singleton.mpr rfl)
    show pySplit (pyJoin [t]) = [t]
    have hj : pyJoin [t] = t := rfl
    rw [hj]
    unfold pySplit
    have happ : t.toList = t.toList ++ ([] : List Char) := by simp
    rw [happ, splitWSAux_append t.toList ht.2 [] []]
    simp only [splitWSAux, List.append_nil]
    rw [if_neg (by simpa using ht.1)]
    simp [strMk_toList]
  | t :: t' :: rest, h => by
    have ht := h t (List.mem_cons_self t (t' :: rest))
    have hrest : ∀ u ∈ t' :: rest, u.toList ≠ [] ∧ ∀ c ∈ u.toList, c.isWhitespace = false :=
      fun u hu => h u (List.mem_cons_of_mem t hu)
    have hj : pyJoin (t :: t' :: rest) = t ++ " " ++ pyJoin (t' :: rest) := rfl
    show pySplit (pyJoin (t :: t' :: rest)) = t :: t' :: rest
    rw [hj]
    unfold pySplit
    have hsp : (" " : String).toList = [' '] := rfl
    have htl : (t ++ " " ++ pyJoin (t' :: rest)).toList
        = t.toList ++ (' ' :: (pyJoin (t' :: rest)).toList) := by
      rw [toList_of_append, toList_of_append, hsp]
      simp
    rw [htl, splitWSAux_append t.toList ht.2 (' ' :: (pyJoin (t' :: rest)).toList) []]
    simp only [splitWSAux, List.append_nil]
    rw [if_pos (by decide : (' ').isWhitespace = true)]
    rw [if_neg (by simpa using ht.1)]
    rw [List.reverse_reverse]
    simp only [List.map_cons, strMk_toList]
    have hrec : (splitWSAux (pyJoin (t' :: rest)).toList []).map String.mk
        = t' :: rest := pySplit_pyJoin (t' :: rest) hrest
    rw [hrec]

/-- Every token produced by the Python whitespace split is nonempty
and whitespace-free. -/
theorem pySplit_good (s : String) :
    ∀ t ∈ pySplit s, t.toList ≠ [] ∧ ∀ c ∈ t.toList, c.isWhitespace = false := by
  intro t ht
  unfold pySplit at ht
  rcases List.mem_map.mp ht with ⟨cl, hcl, rfl⟩
  have h := splitWSAux_good s.toList []
    (by intro c hc; exact absurd hc (List.not_mem_nil c)) cl hcl
  have hcl_eq : (String.mk cl).toList = cl := rfl
  rw [hcl_eq]
  exact h

/-- C5 (counterexample): the entity produced for the out-of-range
extract has empty text, so its whitespace token count is 0 while
end_ix - start_ix + 1 is 3: the token-count identity fails on a
parser-produced entity. -/
theorem C5_counterexample :
    (parse_radgraph_format ext4).1 = [ent4]
    ∧ (pySplit ent4.text).length = 0
    ∧ ent4.end_ix - ent4.start_ix + 1 = 3 := by
  refine ⟨?_, ?_, ?_⟩ <;> decide

/-- C5 (amended): for every entity the parser produces whose span is
actually within the token list (start_ix at most end_ix and end_ix
within the token count), the number of whitespace-separated tokens of
the reconstructed text equals end_ix - start_ix + 1; out-of-range
spans are silently clipped and break the identity. -/
theorem C5_token_count :
    ∀ (ext : Extract) (ent : Entity), ent ∈ (parse_radgraph_format ext).1 →
      ent.start_ix ≤ ent.end_ix →
      ent.end_ix < (pySplit ext.text).length →
      (pySplit ent.text).length = ent.end_ix - ent.start_ix + 1 := by
  intro ext ent hmem hse hlen
  simp only [parse_radgraph_format] at hmem
  rcases List.mem_map.mp hmem with ⟨p, hp, rfl⟩
  simp only [mkEntity] at hse hlen ⊢
  have hsub : ((pySplit ext.text).drop p.2.start_ix).take (p.2.end_ix + 1 - p.2.start_ix)
      |>.Sublist (pySplit ext.text) :=
    (List.take_sublist _ _).trans (List.drop_sublist _ _)
  have hgood : ∀ t ∈ ((pySplit ext.text).drop p.2.start_ix).take
      (p.2.end_ix + 1 - p.2.start_ix),
      t.toList ≠ [] ∧ ∀ c ∈ t.toList, c.isWhitespace = false := by
    intro t ht
    exact pySplit_good ext.text t (hsub.mem ht)
  rw [pySplit_pyJoin _ hgood]
  rw [List.length_take, List.length_drop]
  omega

/-- C5 (witness): the two-token entity hiatal hernia of the sample
document satisfies the token-count identity. -/
theorem C5_token_count_witness :
    (pySplit (Entity.mk "5" "hiatal hernia" "Observation::definitely present" 7 8).text).length
      = (Entity.mk "5" "hiatal hernia" "Observation::definitely present" 7 8).end_ix
        - (Entity.mk "5" "hiatal hernia" "Observation::definitely present" 7 8).start_ix + 1 :=
  C5_token_count sample_extract _ (by decide) (by decide) (by decide)
